import Mathlib

/-!
Verification of the Nudge discount-negotiation service.

This file gives a shallow embedding, in Lean, of the parts of the Nudge
code base that carry real invariants:

* `nudge/pricing_service.py` — the per-session bounded counter-offer
  engine (`NegotiationState.make_offer`, `NegotiationState.get_next_offer`,
  `PricingService.make_discount_offer` with its trait-bonus adjustment);
* `agent_router.py` — the regex-family fact-check classifier
  (`AgentRouter.detect_fact_check_needed`, `_extract_linkedin_info`,
  `should_ask_consent`);
* `bouncer.py` — the consent-gated dispatch protocol of `BouncerAgent.chat`
  and `_handle_consent_response` (projected onto its consent-relevant state);
* `trait_detector.py` — keyword-based trait scoring
  (`TraitDetector.detect_traits`, `get_discount_bonus`);
* `discount_service.py` — `DiscountService.create_negotiation_discount`
  and `_create_simulated_discount`.

Modelling conventions: Python floats for discount percentages become `ℚ`
(the claims under study are order/flow properties, not rounding
properties); timestamps are elided or passed in as opaque strings;
randomness (`random.choices`) is passed in as an explicit choice oracle;
external services (LLM, Shopify, Composio agents) are oracles or
availability flags.  All text processing is modelled at ASCII level,
which covers every pattern literal in the source.
-/

namespace Nudge

/-! ## Merchant configuration (`config_loader.py`)

Only the numeric pricing fields matter for the claims.  The defaults in
`Config` (`merchant_config.get(..., default)`) are 20 / 18 / 8 / 3. -/

structure Config where
  max_discount_pct : ℚ
  floor_margin_pct : ℚ
  first_offer_pct : ℚ
  counter_step_pct : ℚ
deriving DecidableEq, Repr

/-- The code-level defaults of `config_loader.Config`. -/
def defaultConfig : Config :=
  { max_discount_pct := 20, floor_margin_pct := 18
    first_offer_pct := 8, counter_step_pct := 3 }

/-! ## Negotiation engine (`pricing_service.py`) -/

/-- One entry of `NegotiationState.offers` (the `timestamp` field of the
Python dict is elided; no claim mentions it). -/
structure Offer where
  counter : ℕ
  discount_pct : ℚ
  margin_pct : ℚ
deriving DecidableEq, Repr

/-- `NegotiationState.__init__`: counter 0, max 3, discount 0, no offers
(`started_at` elided). -/
structure NegotiationState where
  counter : ℕ
  max_counters : ℕ
  current_discount_pct : ℚ
  offers : List Offer
deriving DecidableEq, Repr

def initState : NegotiationState :=
  { counter := 0, max_counters := 3, current_discount_pct := 0, offers := [] }

/-- Which validation branch of `make_offer` produced the failure dict.
The Python code returns `{"success": False, "error": <message>,
"discount_pct": None}` with a distinct message per branch; the
constructor identifies the branch. -/
inductive OfferError where
  | exceedsMax
  | countersExhausted
  | belowFloor
deriving DecidableEq, Repr

/-- The success dictionary of `make_offer`, later possibly enriched by the
trait-bonus block of `PricingService.make_discount_offer`. -/
structure OfferOk where
  discount_pct : ℚ
  margin_pct : ℚ
  counter : ℕ
  remaining_counters : ℕ
  trait_bonus_applied : Bool := false
  base_discount_pct : Option ℚ := none
  trait_bonus_pct : Option ℚ := none
deriving DecidableEq, Repr

inductive OfferResult where
  | ok (o : OfferOk)
  | err (e : OfferError)
deriving DecidableEq, Repr

def OfferResult.isOk : OfferResult → Bool
  | .ok _ => true
  | .err _ => false

def OfferResult.discount? : OfferResult → Option ℚ
  | .ok o => some o.discount_pct
  | .err _ => none

/-- `NegotiationState.make_offer` (pricing_service.py lines 24–77).
Validates ceiling, then counter budget, then floor margin; mutates only
after all validations pass. -/
def makeOffer (cfg : Config) (s : NegotiationState) (discount_pct : ℚ) :
    OfferResult × NegotiationState :=
  if discount_pct > cfg.max_discount_pct then
    (.err .exceedsMax, s)
  else if s.counter ≥ s.max_counters then
    (.err .countersExhausted, s)
  else
    let margin_pct := 100 - discount_pct
    if margin_pct < cfg.floor_margin_pct then
      (.err .belowFloor, s)
    else
      let c := s.counter + 1
      (.ok { discount_pct := discount_pct, margin_pct := margin_pct,
             counter := c, remaining_counters := s.max_counters - c },
       { s with counter := c, current_discount_pct := discount_pct,
                offers := s.offers ++ [{ counter := c, discount_pct := discount_pct,
                                         margin_pct := margin_pct }] })

/-- The candidate discount computed by `get_next_offer` before the clamp:
`first_offer_pct` on a fresh session, otherwise
`(previous_discount ?? current_discount_pct) + counter_step_pct`. -/
def nextDiscount (cfg : Config) (s : NegotiationState)
    (previous_discount : Option ℚ) : ℚ :=
  if s.counter = 0 then cfg.first_offer_pct
  else match previous_discount with
    | some p => p + cfg.counter_step_pct
    | none => s.current_discount_pct + cfg.counter_step_pct

/-- `NegotiationState.get_next_offer` (lines 79–102): clamp the candidate
to the ceiling, then delegate to `make_offer`. -/
def getNextOffer (cfg : Config) (s : NegotiationState)
    (previous_discount : Option ℚ) : OfferResult × NegotiationState :=
  makeOffer cfg s (min (nextDiscount cfg s previous_discount) cfg.max_discount_pct)

/-- `negotiation.offers[-1]["discount_pct"] = d; ...["margin_pct"] = m`,
guarded by `if negotiation.offers:` — rewrite the last offer in place. -/
def updateLast (d m : ℚ) : List Offer → List Offer
  | [] => []
  | [o] => [{ o with discount_pct := d, margin_pct := m }]
  | o :: o' :: rest => o :: updateLast d m (o' :: rest)

/-- The trait-bonus block of `PricingService.make_discount_offer`
(lines 150–176): runs only on a successful offer with a positive bonus;
clamps to the ceiling, applies only if strictly larger and the floor
margin survives; overwrites the most recent offer instead of appending. -/
def applyTraitBonus (cfg : Config) (s : NegotiationState) (r : OfferResult)
    (trait_bonus_pct : ℚ) : OfferResult × NegotiationState :=
  match r with
  | .err e => (.err e, s)
  | .ok o =>
    if trait_bonus_pct > 0 then
      let base_discount := o.discount_pct
      let bonus_discount := base_discount + trait_bonus_pct
      let final_discount := min bonus_discount cfg.max_discount_pct
      if final_discount > base_discount then
        let final_margin := 100 - final_discount
        if final_margin ≥ cfg.floor_margin_pct then
          (.ok { o with discount_pct := final_discount, margin_pct := final_margin,
                        trait_bonus_applied := true,
                        base_discount_pct := some base_discount,
                        trait_bonus_pct := some trait_bonus_pct },
           { s with current_discount_pct := final_discount,
                    offers := updateLast final_discount final_margin s.offers })
        else (.ok o, s)
      else (.ok o, s)
    else (.ok o, s)

/-- `PricingService.make_discount_offer` (lines 128–177) acting on one
session's `NegotiationState`. -/
def makeDiscountOffer (cfg : Config) (s : NegotiationState)
    (discount_pct : Option ℚ) (trait_bonus_pct : ℚ) :
    OfferResult × NegotiationState :=
  let step :=
    match discount_pct with
    | none =>
      let previous_discount := if s.offers.isEmpty then none
                               else some s.current_discount_pct
      getNextOffer cfg s previous_discount
    | some d => makeOffer cfg s d
  applyTraitBonus cfg step.2 step.1 trait_bonus_pct

/-! ## Reachability and the session invariant -/

/-- States reachable from a fresh session by any sequence of the three
mutating entry points, with arbitrary (possibly negative) requested
discounts — the literal reading of the spec's "any sequence of
`make_offer`, `get_next_offer`, and trait-bonus applications". -/
inductive Reachable (cfg : Config) : NegotiationState → Prop
  | init : Reachable cfg initState
  | offer (s : NegotiationState) (d : ℚ) :
      Reachable cfg s → Reachable cfg (makeOffer cfg s d).2
  | next (s : NegotiationState) (prev : Option ℚ) :
      Reachable cfg s → Reachable cfg (getNextOffer cfg s prev).2
  | discount (s : NegotiationState) (d? : Option ℚ) (bonus : ℚ) :
      Reachable cfg s → Reachable cfg (makeDiscountOffer cfg s d? bonus).2

/-- Reachability restricted to non-negative explicitly supplied discounts
(the code never validates a lower bound, so this restriction is what
makes the `0 ≤ discount_pct` invariant true). -/
inductive ReachableNN (cfg : Config) : NegotiationState → Prop
  | init : ReachableNN cfg initState
  | offer (s : NegotiationState) (d : ℚ) (hd : 0 ≤ d) :
      ReachableNN cfg s → ReachableNN cfg (makeOffer cfg s d).2
  | next (s : NegotiationState) (prev : Option ℚ)
      (hp : ∀ p, prev = some p → 0 ≤ p) :
      ReachableNN cfg s → ReachableNN cfg (getNextOffer cfg s prev).2
  | discount (s : NegotiationState) (d? : Option ℚ) (bonus : ℚ)
      (hd : ∀ d, d? = some d → 0 ≤ d) :
      ReachableNN cfg s → ReachableNN cfg (makeDiscountOffer cfg s d? bonus).2

/-- The invariant of one recorded offer. -/
def OfferInv (cfg : Config) (o : Offer) : Prop :=
  0 ≤ o.discount_pct ∧ o.discount_pct ≤ cfg.max_discount_pct ∧
  o.margin_pct = 100 - o.discount_pct ∧ cfg.floor_margin_pct ≤ o.margin_pct

/-- The session invariant claimed by the spec's data model. -/
def Inv (cfg : Config) (s : NegotiationState) : Prop :=
  s.max_counters = 3 ∧
  s.counter ≤ s.max_counters ∧
  s.offers.length = s.counter ∧
  0 ≤ s.current_discount_pct ∧
  s.current_discount_pct ≤ cfg.max_discount_pct ∧
  cfg.floor_margin_pct ≤ 100 - s.current_discount_pct ∧
  ∀ o ∈ s.offers, OfferInv cfg o

/-- Configurations under which the invariant is expressible: non-negative
offer parameters and a floor at most 100.  The repo defaults
(20 / 18 / 8 / 3) satisfy this. -/
def SaneConfig (cfg : Config) : Prop :=
  0 ≤ cfg.first_offer_pct ∧ 0 ≤ cfg.counter_step_pct ∧
  0 ≤ cfg.max_discount_pct ∧ cfg.floor_margin_pct ≤ 100

/-! ## String helpers

Python string operations (`in`, `.strip()`, `re.search` for the concrete
pattern shapes used by `agent_router.py`) modelled on `List Char`. -/

/-- The apostrophe character (several source patterns contain it). -/
def apos : Char := Char.ofNat 39

/-- Python `lit in cs`: `lit` occurs contiguously in `cs`. -/
def containsSub (lit : List Char) : List Char → Bool
  | [] => lit.isEmpty
  | c :: rest => lit.isPrefixOf (c :: rest) || containsSub lit rest

/-- Python `str.lower()` at ASCII level, character by character. -/
def toLowerChars (cs : List Char) : List Char := cs.map Char.toLower

/-- Python `str.strip()`: drop whitespace from both ends. -/
def stripChars (cs : List Char) : List Char :=
  ((cs.dropWhile Char.isWhitespace).reverse.dropWhile Char.isWhitespace).reverse

/-- `re.search(lit + "(.+)", cs)`: finds the leftmost occurrence of the
literal `lit` followed by at least one non-newline character and returns
the greedy group — the rest of that line.  (`.` does not match a newline,
and positions where the literal is followed by a line end do not match,
so the scan continues past them.) -/
def litPlusGroup (lit : List Char) : List Char → Option (List Char)
  | [] => none
  | c :: rest =>
    if lit.isPrefixOf (c :: rest) then
      match ((c :: rest).drop lit.length).takeWhile (fun ch => ch ≠ '\n') with
      | [] => litPlusGroup lit rest
      | g => some g
    else litPlusGroup lit rest

/-- `re.search(lit + "(.+)", cs)` as a Boolean. -/
def litPlus (lit : List Char) (cs : List Char) : Bool :=
  (litPlusGroup lit cs).isSome

/-- `mid` occurs in `cs` at some position with at least one character
after it (no position restriction at the front). -/
def midThenMore (mid : List Char) : List Char → Bool
  | [] => false
  | c :: rest =>
    (mid.isPrefixOf (c :: rest) && decide (mid.length < (c :: rest).length))
      || midThenMore mid rest

/-- `re.fullmatch`-free `(.+)mid(.+)` within a single newline-free
segment: `mid` occurs with at least one character before and after. -/
def properMid (mid : List Char) : List Char → Bool
  | [] => false
  | _ :: rest => midThenMore mid rest

/-- Split on newlines (the segments `.` can range over). -/
def splitLines : List Char → List (List Char)
  | [] => [[]]
  | c :: rest =>
    match splitLines rest with
    | [] => [[c]]
    | l :: ls => if c = '\n' then [] :: l :: ls else (c :: l) :: ls

/-- `re.search("(.+)mid(.+)", cs)`: some line of `cs` has a proper
occurrence of `mid`. -/
def anyLineProperMid (mid : List Char) (cs : List Char) : Bool :=
  (splitLines cs).any (fun line => properMid mid line)

/-- `lit` occurs in `cs` at some position other than the first. -/
def containsAfterOne (lit : List Char) : List Char → Bool
  | [] => false
  | _ :: rest => containsSub lit rest

/-! ## Fact-check classifier (`agent_router.py`)

Each Python regex is a literal/alternation/`(.+)` shape; the helpers
above give its `re.search` semantics exactly.  Pattern literals: -/

def iWorkAt : List Char := "i work at ".data
def iAmAt : List Char := "i am at ".data
def myCompanyIs : List Char := "my company is ".data
def imA : List Char := ['i', apos, 'm', ' ', 'a', ' ']
def imAn : List Char := ['i', apos, 'm', ' ', 'a', 'n', ' ']
def atMid : List Char := " at ".data
def onLinkedin : List Char := " on linkedin".data
def accordingTo : List Char := "according to ".data

/-- `re.search(r"i'm (a|an) (.+) at (.+)", cs)`, returning group(1)
(`"a"` or `"an"`) of the leftmost match, as `detect_fact_check_needed`
uses `match.group(1)` as the query. -/
def imAAtGroup : List Char → Option (List Char)
  | [] => none
  | c :: rest =>
    if imA.isPrefixOf (c :: rest) &&
        properMid atMid
          (((c :: rest).drop imA.length).takeWhile (fun ch => ch ≠ '\n')) then
      some ['a']
    else if imAn.isPrefixOf (c :: rest) &&
        properMid atMid
          (((c :: rest).drop imAn.length).takeWhile (fun ch => ch ≠ '\n')) then
      some ['a', 'n']
    else imAAtGroup rest

/-- Indices (other than 0) of `cs` where `pat` starts; the last one is
where a greedy `(.+)` leaves the trailing literal. -/
def lastOccAfterOne (pat : List Char) (cs : List Char) : Option ℕ :=
  ((List.range cs.length).filter
    (fun i => decide (1 ≤ i) && pat.isPrefixOf (cs.drop i))).getLast?

/-- `re.search(lit + r"(.+) on linkedin", cs)` returning the greedy
group(1) of the leftmost match. -/
def litOnLinkedinGroup (lit : List Char) : List Char → Option (List Char)
  | [] => none
  | c :: rest =>
    if lit.isPrefixOf (c :: rest) then
      match lastOccAfterOne onLinkedin
          (((c :: rest).drop lit.length).takeWhile (fun ch => ch ≠ '\n')) with
      | some j =>
        some ((((c :: rest).drop lit.length).takeWhile (fun ch => ch ≠ '\n')).take j)
      | none => litOnLinkedinGroup lit rest
    else litOnLinkedinGroup lit rest

/-- The `linkedin_patterns` list, tried in order; the first match yields
`match.group(1)` (every pattern in the list has groups). -/
def linkedinQuery (ml : List Char) : Option (List Char) :=
  (litPlusGroup iWorkAt ml) <|> (litPlusGroup myCompanyIs ml) <|>
  (imAAtGroup ml) <|> (litOnLinkedinGroup "look up ".data ml) <|>
  (litOnLinkedinGroup "find ".data ml)

/-- The `brave_patterns` list as a Boolean (the query is the full
message, so only whether some pattern matches matters). -/
def braveMatch (ml : List Char) : Bool :=
  anyLineProperMid " is ".data ml || anyLineProperMid " are ".data ml ||
  litPlus accordingTo ml ||
  litPlus "i read ".data ml || litPlus "i heard ".data ml ||
  litPlus "i saw ".data ml ||
  anyLineProperMid " said ".data ml || anyLineProperMid " claims ".data ml ||
  anyLineProperMid " stated ".data ml

/-- The `fact_check_patterns` list as a Boolean. -/
def factCheckMatch (ml : List Char) : Bool :=
  litPlus iWorkAt ml || litPlus iAmAt ml ||
  litPlus imA ml || litPlus imAn ml ||
  litPlus myCompanyIs ml ||
  anyLineProperMid " is a ".data ml || anyLineProperMid " is an ".data ml ||
  anyLineProperMid " are a ".data ml || anyLineProperMid " are an ".data ml ||
  litPlus accordingTo ml ||
  litPlus "i read ".data ml || litPlus "i heard ".data ml ||
  litPlus "i saw ".data ml ||
  anyLineProperMid " said ".data ml || anyLineProperMid " claims ".data ml ||
  anyLineProperMid " stated ".data ml ||
  anyLineProperMid " has ".data ml || anyLineProperMid " have ".data ml

inductive AgentType where
  | brave
  | linkedin
deriving DecidableEq, Repr

/-- The `_extract_linkedin_info` result dict. -/
structure LinkedInInfo where
  name : Option String := none
  company : Option String := none
  title : Option String := none
deriving DecidableEq, Repr

/-- The detection dict of `detect_fact_check_needed`. -/
structure Detection where
  needed : Bool
  agent_type : Option AgentType
  query : Option String
  confidence : ℚ
  extracted_info : Option LinkedInInfo := none
  claim : Option String := none
deriving DecidableEq, Repr

/-- `re.search(r"i'm (a|an) (.+?) at (.+)", cs)` of
`_extract_linkedin_info`: lazy group(2) (title) up to the first valid
`" at "`, greedy group(3) (company) to the end of the line. -/
def firstAtSplit (cs : List Char) : Option (List Char × List Char) :=
  match (List.range cs.length).find?
      (fun j => decide (1 ≤ j) && atMid.isPrefixOf (cs.drop j) &&
        decide (j + atMid.length < cs.length)) with
  | some j => some (cs.take j, cs.drop (j + atMid.length))
  | none => none

def imATitleGroups : List Char → Option (List Char × List Char)
  | [] => none
  | c :: rest =>
    if imA.isPrefixOf (c :: rest) then
      match firstAtSplit
          (((c :: rest).drop imA.length).takeWhile (fun ch => ch ≠ '\n')) with
      | some tc => some tc
      | none => imATitleGroups rest
    else if imAn.isPrefixOf (c :: rest) then
      match firstAtSplit
          (((c :: rest).drop imAn.length).takeWhile (fun ch => ch ≠ '\n')) with
      | some tc => some tc
      | none => imATitleGroups rest
    else imATitleGroups rest

/-- `AgentRouter._extract_linkedin_info` (lines 122–142): company from
"i work at X", overridden together with title when
"i'm (a|an) T at C" matches. -/
def extractLinkedinInfo (message : String) : LinkedInInfo :=
  let ml := toLowerChars message.data
  let company0 : Option String :=
    (litPlusGroup iWorkAt ml).map (fun g => String.mk (stripChars g))
  match imATitleGroups ml with
  | some tc =>
    { name := none, title := some (String.mk (stripChars tc.1)),
      company := some (String.mk (stripChars tc.2)) }
  | none => { name := none, title := none, company := company0 }

/-- `AgentRouter.detect_fact_check_needed` (lines 34–120): LinkedIn
family first (confidence 0.7), then Brave family (0.6), then the generic
fact-check family (0.5); otherwise `needed: false` with confidence 0.
The `conversation_context` parameter is lowercased by the source and
then never used. -/
def detectFactCheckNeeded (user_message : String)
    (conversation_context : String := "") : Detection :=
  let ml := toLowerChars user_message.data
  match linkedinQuery ml with
  | some q =>
    { needed := true, agent_type := some .linkedin,
      query := some (String.mk q), confidence := 7/10,
      extracted_info := some (extractLinkedinInfo user_message) }
  | none =>
    if braveMatch ml then
      { needed := true, agent_type := some .brave, query := some user_message,
        confidence := 6/10, claim := some user_message }
    else if factCheckMatch ml then
      { needed := true, agent_type := some .brave, query := some user_message,
        confidence := 5/10, claim := some user_message }
    else
      { needed := false, agent_type := none, query := none, confidence := 0 }

/-- Which fact-check agents were successfully constructed in
`AgentRouter.__init__` (configured in `tool_calls` and Composio
available). -/
structure Avail where
  brave : Bool
  linkedin : Bool
deriving DecidableEq, Repr

def availFor (av : Avail) : AgentType → Bool
  | .brave => av.brave
  | .linkedin => av.linkedin

/-- `AgentRouter.should_ask_consent` (lines 183–195). -/
def shouldAskConsent (av : Avail) (d : Detection) : Bool :=
  if !d.needed then false
  else if decide (d.agent_type = some AgentType.brave) && !av.brave then false
  else if decide (d.agent_type = some AgentType.linkedin) && !av.linkedin then
    false
  else decide ((1 : ℚ)/2 ≤ d.confidence)

/-! ## Consent protocol (`bouncer.py`)

`BouncerAgent.chat` projected onto its consent-relevant state: the
`pending_fact_check` field, plus a log of the `execute_fact_check`
dispatches the turn performs.  The negotiation/LLM side of the turn
neither reads nor writes `pending_fact_check` and performs no dispatch,
so it is elided from the projection. -/

def affirmatives : List String :=
  ["yes", "y", "yeah", "sure", "ok", "okay", "go ahead"]

/-- `user_message.lower().strip() in [...]` of
`_handle_consent_response`. -/
def isConsentGiven (user_message : String) : Bool :=
  affirmatives.contains (String.mk (stripChars (toLowerChars user_message.data)))

structure ConsentView where
  pending_fact_check : Option Detection
deriving DecidableEq, Repr

/-- The argument triple of an `execute_fact_check` call. -/
structure DispatchCall where
  agent_type : Option AgentType
  query : Option String
  extracted_info : Option LinkedInInfo
deriving DecidableEq, Repr

/-- `BouncerAgent._handle_consent_response` (lines 186–238): dispatch
exactly once on an affirmative answer, never otherwise; clear
`pending_fact_check` on both paths. -/
def handleConsentResponse (s : ConsentView) (user_message : String) :
    List DispatchCall × ConsentView :=
  match s.pending_fact_check with
  | none => ([], s)
  | some det =>
    if isConsentGiven user_message then
      ([{ agent_type := det.agent_type, query := det.query,
          extracted_info := det.extracted_info }],
       { pending_fact_check := none })
    else
      ([], { pending_fact_check := none })

/-- `BouncerAgent.chat` (lines 56–147), consent-relevant projection:
`_is_consent_response` is `pending_fact_check is not None`, so any
pending detection routes the message to `_handle_consent_response`;
otherwise the pipeline runs, dispatches nothing, and records a new
pending detection exactly when `detection.needed` and
`should_ask_consent(detection)`. -/
def chatStep (av : Avail) (s : ConsentView) (user_message : String) :
    List DispatchCall × ConsentView :=
  if s.pending_fact_check.isSome then
    handleConsentResponse s user_message
  else
    let det := detectFactCheckNeeded user_message
    if det.needed && shouldAskConsent av det then
      ([], { pending_fact_check := some det })
    else
      ([], s)

/-! ## Trait detection (`trait_detector.py`)

The trait catalog (`merchant_config['valuable_traits']`) maps a trait
name to keywords and a bonus percentage.  Entries in the legacy
keyword-list format, or dict entries without `discount_bonus_pct`,
contribute bonus 0, which the single `discount_bonus_pct` field models
directly. -/

structure TraitSpec where
  name : String
  keywords : List String
  discount_bonus_pct : ℚ
deriving DecidableEq, Repr

/-- One entry of the list returned by `detect_traits`. -/
structure TraitDetection where
  trait : String
  confidence : ℚ
  match_count : ℕ
deriving DecidableEq, Repr

/-- `sum(1 for keyword in keywords if keyword.lower() in text_lower)`. -/
def matchCount (keywords : List String) (text_lower : List Char) : ℕ :=
  (keywords.filter (fun k => containsSub (toLowerChars k.data) text_lower)).length

/-- The unsorted detection list, in catalog order. -/
def traitCandidates (catalog : List TraitSpec) (conversation_text : String) :
    List TraitDetection :=
  let text_lower := toLowerChars conversation_text.data
  catalog.filterMap (fun sp =>
    let m := matchCount sp.keywords text_lower
    if m > 0 then
      some { trait := sp.name,
             confidence := min ((m : ℚ) / (sp.keywords.length : ℚ) * 2) 1,
             match_count := m }
    else none)

/-- One step of a stable descending insertion: place `a` before the first
element whose confidence is `≤` its own. -/
def insertDesc (a : TraitDetection) : List TraitDetection → List TraitDetection
  | [] => [a]
  | b :: l => if b.confidence ≤ a.confidence then a :: b :: l
              else b :: insertDesc a l

/-- Stable sort by descending confidence.  Python's
`detected.sort(key=lambda x: x['confidence'], reverse=True)` is a stable
descending sort; this insertion sort computes the same (unique) stable
descending ordering. -/
def sortDesc : List TraitDetection → List TraitDetection
  | [] => []
  | a :: l => insertDesc a (sortDesc l)

/-- `TraitDetector.detect_traits` (lines 34–64). -/
def detectTraits (catalog : List TraitSpec) (conversation_text : String) :
    List TraitDetection :=
  sortDesc (traitCandidates catalog conversation_text)

/-- `TraitDetector.get_discount_bonus` (lines 66–101): confidence-weighted
sum of per-trait bonuses, capped at `max_trait_bonus_pct`. -/
def getDiscountBonus (catalog : List TraitSpec) (max_trait_bonus_pct : ℚ)
    (traits : List TraitDetection) : ℚ :=
  if traits.isEmpty then 0
  else
    let total := traits.foldl (fun acc t =>
      acc + (((catalog.find? (fun sp => sp.name = t.trait)).map
        (fun sp => sp.discount_bonus_pct)).getD 0) * t.confidence) 0
    min total max_trait_bonus_pct

/-! ## Discount service (`discount_service.py`) -/

/-- How the Shopify collaborator behaves on this call: the client was
never constructed (credentials missing), the call raises, the call
returns a success payload, or the call returns a structured
`success: False` payload (GraphQL `errors` / `userErrors`). -/
inductive ShopifyBehavior where
  | unavailable
  | raises
  | ok (code : String) (discount_id : Option String)
  | fails (error : String)
deriving DecidableEq, Repr

/-- The result dict of `create_negotiation_discount` (timestamps elided
except for the caller-visible `expires_at` string, which is passed in as
an opaque clock value; the simulated branch's `note` field is implied by
`simulated = true`). -/
inductive DiscountResult where
  | offerFailed (e : OfferError)
  | shopifyFailed (error : String) (discount_pct : ℚ)
  | created (discount_code : String) (discount_pct : ℚ) (expires_at : String)
      (counter remaining_counters : ℕ) (shopify_id : Option String)
      (detected_traits : List String) (trait_bonus_applied : Bool)
      (base_discount_pct : ℚ) (simulated : Bool)
deriving DecidableEq, Repr

def DiscountResult.success : DiscountResult → Bool
  | .created .. => true
  | _ => false

def DiscountResult.simulated? : DiscountResult → Bool
  | .created _ _ _ _ _ _ _ _ _ sim => sim
  | _ => false

def DiscountResult.code? : DiscountResult → Option String
  | .created c .. => some c
  | _ => none

/-- `string.ascii_uppercase + string.digits`. -/
def simAlphabet : List Char := "ABCDEFGHIJKLMNOPQRSTUVWXYZ0123456789".data

/-- `''.join(random.choices(string.ascii_uppercase + string.digits, k=8))`
with the eight random draws supplied as an explicit oracle. -/
def simCode (picks : Fin 8 → Fin 36) : String :=
  String.mk (List.ofFn (fun i : Fin 8 => simAlphabet.getD (picks i).val 'A'))

/-- `DiscountService._create_simulated_discount` (lines 113–143). -/
def createSimulatedDiscount (code : Option String) (picks : Fin 8 → Fin 36)
    (expires_at : String) (discount_pct : ℚ) (offerOk : OfferOk)
    (detected_traits : List String) : DiscountResult :=
  let c := match code with
    | some c => c
    | none => simCode picks
  .created c discount_pct expires_at offerOk.counter offerOk.remaining_counters
    none detected_traits offerOk.trait_bonus_applied
    (offerOk.base_discount_pct.getD discount_pct) true

/-- The trait-detection prologue of `create_negotiation_discount`
(lines 51–59): traits are detected when `conversation_text` is truthy
(Python: non-`None` and non-empty), and the bonus is computed when the
detection list is non-empty. -/
def traitsOf (catalog : List TraitSpec) (conversation_text : Option String) :
    List TraitDetection :=
  match conversation_text with
  | some t => if t.isEmpty then [] else detectTraits catalog t
  | none => []

def traitBonusOf (catalog : List TraitSpec) (max_trait_bonus_pct : ℚ)
    (conversation_text : Option String) : ℚ :=
  let traits := traitsOf catalog conversation_text
  if traits.isEmpty then 0
  else getDiscountBonus catalog max_trait_bonus_pct traits

/-- `DiscountService.create_negotiation_discount` (lines 28–111) acting on
one session's `NegotiationState`: trait prologue, offer through
`make_discount_offer`, then the Shopify branch — unconfigured client or a
raised exception fall back to the simulated code, a structured failure is
forwarded as a failure. -/
def createNegotiationDiscount (cfg : Config) (catalog : List TraitSpec)
    (max_trait_bonus_pct : ℚ) (s : NegotiationState)
    (discount_pct : Option ℚ) (code : Option String)
    (conversation_text : Option String) (shopify : ShopifyBehavior)
    (picks : Fin 8 → Fin 36) (expires_at : String) :
    DiscountResult × NegotiationState :=
  let detected_traits := (traitsOf catalog conversation_text).map (fun t => t.trait)
  let step := makeDiscountOffer cfg s discount_pct
    (traitBonusOf catalog max_trait_bonus_pct conversation_text)
  match step.1 with
  | .err e => (.offerFailed e, step.2)
  | .ok o =>
    match shopify with
    | .unavailable =>
      (createSimulatedDiscount code picks expires_at o.discount_pct o
        detected_traits, step.2)
    | .raises =>
      (createSimulatedDiscount code picks expires_at o.discount_pct o
        detected_traits, step.2)
    | .ok c id =>
      (.created c o.discount_pct expires_at o.counter o.remaining_counters id
        detected_traits o.trait_bonus_applied
        (o.base_discount_pct.getD o.discount_pct) false, step.2)
    | .fails err => (.shopifyFailed err o.discount_pct, step.2)

/-- A small concrete trait catalog used by witnesses. -/
def demoCatalog : List TraitSpec :=
  [{ name := "influencer", keywords := ["influencer", "followers", "instagram"],
     discount_bonus_pct := 5 },
   { name := "salon_owner", keywords := ["salon", "stylist"],
     discount_bonus_pct := 4 }]

/-! ## Theorems: negotiation engine -/

theorem updateLast_cons_cons (d m : ℚ) (a b : Offer) (l : List Offer) :
    updateLast d m (a :: b :: l) = a :: updateLast d m (b :: l) := rfl

theorem updateLast_append (d m : ℚ) (pre : List Offer) (o : Offer) :
    updateLast d m (pre ++ [o]) =
      pre ++ [{ o with discount_pct := d, margin_pct := m }] := by
  induction pre with
  | nil => rfl
  | cons a t ih =>
    cases t with
    | nil => rfl
    | cons b t' => simpa [updateLast] using ih

theorem updateLast_length (d m : ℚ) (l : List Offer) :
    (updateLast d m l).length = l.length := by
  induction l with
  | nil => rfl
  | cons a t ih =>
    cases t with
    | nil => rfl
    | cons b t' => simpa [updateLast] using ih

theorem updateLast_forall {P : Offer → Prop} (d m : ℚ) {l : List Offer}
    (h : ∀ o ∈ l, P o)
    (hnew : ∀ o : Offer, P { o with discount_pct := d, margin_pct := m }) :
    ∀ o ∈ updateLast d m l, P o := by
  induction l with
  | nil => simp [updateLast]
  | cons a t ih =>
    cases t with
    | nil =>
      intro o ho
      simp only [updateLast, List.mem_singleton] at ho
      exact ho ▸ hnew a
    | cons b t' =>
      intro o ho
      simp only [updateLast, List.mem_cons] at ho
      rcases ho with rfl | ho
      · exact h o (List.mem_cons_self ..)
      · exact ih (fun x hx => h x (List.mem_cons_of_mem _ hx)) o
          (by simpa using ho)

theorem makeOffer_snd_inv (cfg : Config) (s : NegotiationState) (d : ℚ)
    (hInv : Inv cfg s) (hd : 0 ≤ d) : Inv cfg (makeOffer cfg s d).2 := by
  obtain ⟨hmx, hc, hlen, h0, hmax, hfl, hoff⟩ := hInv
  simp only [makeOffer]
  split_ifs with h1 h2 h3
  · exact ⟨hmx, hc, hlen, h0, hmax, hfl, hoff⟩
  · exact ⟨hmx, hc, hlen, h0, hmax, hfl, hoff⟩
  · exact ⟨hmx, hc, hlen, h0, hmax, hfl, hoff⟩
  · dsimp only
    refine ⟨hmx, Nat.succ_le_of_lt (Nat.lt_of_not_le h2), by simp [hlen], hd,
      not_lt.mp h1, not_lt.mp h3, ?_⟩
    intro o ho
    rcases List.mem_append.mp ho with ho | ho
    · exact hoff o ho
    · rw [List.mem_singleton.mp ho]
      exact ⟨hd, not_lt.mp h1, rfl, not_lt.mp h3⟩

theorem makeOffer_ok_discount (cfg : Config) (s : NegotiationState) (d : ℚ)
    (o : OfferOk) (h : (makeOffer cfg s d).1 = .ok o) : o.discount_pct = d := by
  simp only [makeOffer] at h
  split_ifs at h <;>
    first
      | exact OfferResult.noConfusion h
      | (injection h with h'; subst h'; rfl)

theorem makeOffer_success_effects (cfg : Config) (s : NegotiationState) (d : ℚ)
    (h : (makeOffer cfg s d).1.isOk = true) :
    (makeOffer cfg s d).2.counter = s.counter + 1 ∧
    (makeOffer cfg s d).2.offers.length = s.offers.length + 1 := by
  simp only [makeOffer] at h ⊢
  split_ifs at h ⊢
  · simp [OfferResult.isOk] at h
  · simp [OfferResult.isOk] at h
  · simp [OfferResult.isOk] at h
  · dsimp only
    simp

theorem makeOffer_fail_state (cfg : Config) (s : NegotiationState) (d : ℚ)
    (h : (makeOffer cfg s d).1.isOk = false) : (makeOffer cfg s d).2 = s := by
  simp only [makeOffer] at h ⊢
  split_ifs at h ⊢
  · rfl
  · rfl
  · rfl
  · simp [OfferResult.isOk] at h

theorem nextDiscount_nonneg (cfg : Config) (s : NegotiationState)
    (prev : Option ℚ) (hcfg : SaneConfig cfg) (hInv : Inv cfg s)
    (hp : ∀ p, prev = some p → 0 ≤ p) : 0 ≤ nextDiscount cfg s prev := by
  unfold nextDiscount
  split_ifs with h
  · exact hcfg.1
  · cases prev with
    | some p => exact add_nonneg (hp p rfl) hcfg.2.1
    | none => exact add_nonneg hInv.2.2.2.1 hcfg.2.1

theorem getNextOffer_snd_inv (cfg : Config) (s : NegotiationState)
    (prev : Option ℚ) (hcfg : SaneConfig cfg) (hInv : Inv cfg s)
    (hp : ∀ p, prev = some p → 0 ≤ p) : Inv cfg (getNextOffer cfg s prev).2 := by
  unfold getNextOffer
  exact makeOffer_snd_inv cfg s _ hInv
    (le_min (nextDiscount_nonneg cfg s prev hcfg hInv hp) hcfg.2.2.1)

theorem getNextOffer_ok_discount_nonneg (cfg : Config) (s : NegotiationState)
    (prev : Option ℚ) (o : OfferOk) (hcfg : SaneConfig cfg) (hInv : Inv cfg s)
    (hp : ∀ p, prev = some p → 0 ≤ p)
    (h : (getNextOffer cfg s prev).1 = .ok o) : 0 ≤ o.discount_pct := by
  unfold getNextOffer at h
  rw [makeOffer_ok_discount _ _ _ _ h]
  exact le_min (nextDiscount_nonneg cfg s prev hcfg hInv hp) hcfg.2.2.1

theorem applyTraitBonus_snd_inv (cfg : Config) (s : NegotiationState)
    (r : OfferResult) (bonus : ℚ) (hInv : Inv cfg s)
    (hbase : ∀ o, r = .ok o → 0 ≤ o.discount_pct) :
    Inv cfg (applyTraitBonus cfg s r bonus).2 := by
  match r with
  | .err e => exact hInv
  | .ok o =>
    have h0 : 0 ≤ o.discount_pct := hbase o rfl
    obtain ⟨hmx, hc, hlen, hcur0, hcurmax, hcurfl, hoff⟩ := hInv
    simp only [applyTraitBonus]
    split_ifs with hb hgt hfl
    · refine ⟨hmx, hc, by simpa [updateLast_length] using hlen,
        h0.trans (le_of_lt hgt), min_le_right .., hfl, ?_⟩
      exact updateLast_forall _ _ hoff
        (fun o' => ⟨h0.trans (le_of_lt hgt), min_le_right .., rfl, hfl⟩)
    · exact ⟨hmx, hc, hlen, hcur0, hcurmax, hcurfl, hoff⟩
    · exact ⟨hmx, hc, hlen, hcur0, hcurmax, hcurfl, hoff⟩
    · exact ⟨hmx, hc, hlen, hcur0, hcurmax, hcurfl, hoff⟩

theorem makeDiscountOffer_snd_inv (cfg : Config) (s : NegotiationState)
    (d? : Option ℚ) (bonus : ℚ) (hcfg : SaneConfig cfg) (hInv : Inv cfg s)
    (hd : ∀ d, d? = some d → 0 ≤ d) :
    Inv cfg (makeDiscountOffer cfg s d? bonus).2 := by
  unfold makeDiscountOffer
  cases d? with
  | some d =>
    exact applyTraitBonus_snd_inv cfg _ _ bonus
      (makeOffer_snd_inv cfg s d hInv (hd d rfl))
      (fun o ho => by
        rw [makeOffer_ok_discount _ _ _ _ ho]; exact hd d rfl)
  | none =>
    have hp : ∀ p, (if s.offers.isEmpty then none
        else some s.current_discount_pct) = some p → 0 ≤ p := by
      intro p hp'
      split_ifs at hp'
      exact (Option.some_inj.mp hp') ▸ hInv.2.2.2.1
    exact applyTraitBonus_snd_inv cfg _ _ bonus
      (getNextOffer_snd_inv cfg s _ hcfg hInv hp)
      (fun o ho => getNextOffer_ok_discount_nonneg cfg s _ o hcfg hInv hp ho)

/-- C1 (amended): for a configuration with non-negative
`first_offer_pct`, `counter_step_pct`, `max_discount_pct` and a floor at
most 100, every state reached by offers whose explicitly supplied
discounts are non-negative satisfies the session invariants
(`0 ≤ discount_pct ≤ max_discount_pct`,
`margin_pct = 100 − discount_pct ≥ floor_margin_pct`,
`counter ≤ max_counters = 3`, `len(offers) = counter`), and every
`make_offer` call either succeeds and grows `counter` and `offers` by
exactly one, or fails and leaves the state unchanged.  (As stated, over
arbitrary `make_offer` arguments, the claim is false: the code never
checks `0 ≤ discount_pct` — see the counterexample.) -/
theorem C1_session_invariants (cfg : Config) (hcfg : SaneConfig cfg) :
    (∀ s, ReachableNN cfg s → Inv cfg s) ∧
    (∀ s d, ((makeOffer cfg s d).1.isOk = true →
        (makeOffer cfg s d).2.counter = s.counter + 1 ∧
        (makeOffer cfg s d).2.offers.length = s.offers.length + 1) ∧
      ((makeOffer cfg s d).1.isOk = false → (makeOffer cfg s d).2 = s)) := by
  constructor
  · intro s hs
    induction hs with
    | init =>
      refine ⟨rfl, by norm_num [initState], rfl, le_refl 0, hcfg.2.2.1,
        ?_, by simp [initState]⟩
      simpa [initState] using hcfg.2.2.2
    | offer s d hd _ ih => exact makeOffer_snd_inv cfg s d ih hd
    | next s prev hp _ ih => exact getNextOffer_snd_inv cfg s prev hcfg ih hp
    | discount s d? bonus hd _ ih =>
      exact makeDiscountOffer_snd_inv cfg s d? bonus hcfg ih hd
  · intro s d
    exact ⟨makeOffer_success_effects cfg s d, makeOffer_fail_state cfg s d⟩

/-- Witness for C1: the default configuration is sane and a fresh session
satisfies the invariant. -/
theorem C1_session_invariants_witness :
    SaneConfig defaultConfig ∧ Inv defaultConfig initState :=
  ⟨by norm_num [SaneConfig, defaultConfig],
   (C1_session_invariants defaultConfig
      (by norm_num [SaneConfig, defaultConfig])).1 initState ReachableNN.init⟩

/-- Counterexample for C1 as literally stated: `make_offer` never
validates non-negativity, so offering `-5` on a fresh default-config
session succeeds and leaves a reachable state whose
`current_discount_pct` is negative, violating `0 ≤ discount_pct`. -/
theorem C1_counterexample :
    Reachable defaultConfig (makeOffer defaultConfig initState (-5)).2 ∧
    (makeOffer defaultConfig initState (-5)).1.isOk = true ∧
    (makeOffer defaultConfig initState (-5)).2.current_discount_pct < 0 := by
  refine ⟨Reachable.offer initState (-5) Reachable.init, ?_, ?_⟩ <;>
    norm_num [makeOffer, initState, defaultConfig, OfferResult.isOk]

/-- C7: with `first_offer_pct = 8`, `counter_step_pct = 3`,
`max_discount_pct = 20` (floor 18, which these values respect), three
successive successful `get_next_offer` calls on a fresh session — whether
invoked directly or through `make_discount_offer` with no explicit
discount and no trait bonus — produce discounts 8, 11, 14. -/
theorem C7_escalation_sequence :
    let cfg : Config := { max_discount_pct := 20, floor_margin_pct := 18,
                          first_offer_pct := 8, counter_step_pct := 3 }
    let a1 := getNextOffer cfg initState none
    let a2 := getNextOffer cfg a1.2 none
    let a3 := getNextOffer cfg a2.2 none
    let b1 := makeDiscountOffer cfg initState none 0
    let b2 := makeDiscountOffer cfg b1.2 none 0
    let b3 := makeDiscountOffer cfg b2.2 none 0
    a1.1.discount? = some 8 ∧ a2.1.discount? = some 11 ∧
    a3.1.discount? = some 14 ∧
    a1.1.isOk = true ∧ a2.1.isOk = true ∧ a3.1.isOk = true ∧
    b1.1.discount? = some 8 ∧ b2.1.discount? = some 11 ∧
    b3.1.discount? = some 14 := by
  norm_num [getNextOffer, nextDiscount, makeOffer, makeDiscountOffer,
    applyTraitBonus, OfferResult.discount?, OfferResult.isOk, initState]

/-- C2: `make_offer` validates the ceiling, then the counter budget, then
the floor margin, in that order; each failure is identified by a distinct
structured error and leaves the session state untouched; in particular a
4th offer on a session with `counter = max_counters = 3` (at a
within-ceiling discount) fails with the counter-exhaustion error and
mutates nothing. -/
theorem C2_validation_order_no_mutation (cfg : Config) (s : NegotiationState)
    (d : ℚ) :
    (d > cfg.max_discount_pct → makeOffer cfg s d = (.err .exceedsMax, s)) ∧
    (¬ d > cfg.max_discount_pct → s.counter ≥ s.max_counters →
      makeOffer cfg s d = (.err .countersExhausted, s)) ∧
    (¬ d > cfg.max_discount_pct → s.counter < s.max_counters →
      100 - d < cfg.floor_margin_pct →
      makeOffer cfg s d = (.err .belowFloor, s)) ∧
    (∀ e, (makeOffer cfg s d).1 = .err e → (makeOffer cfg s d).2 = s) ∧
    (s.counter = 3 → s.max_counters = 3 → d ≤ cfg.max_discount_pct →
      makeOffer cfg s d = (.err .countersExhausted, s)) := by
  refine ⟨?_, ?_, ?_, ?_, ?_⟩
  · intro h1
    simp [makeOffer, h1]
  · intro h1 h2
    simp [makeOffer, h1, h2]
  · intro h1 h2 h3
    simp [makeOffer, h1, h2, Nat.not_le.mpr h2, h3]
  · intro e
    simp only [makeOffer]
    split_ifs <;> simp
  · intro hc hm hd
    simp [makeOffer, hc, hm, not_lt.mpr hd]

/-- Witness for C2: the 4th offer on an exhausted default-config session. -/
theorem C2_validation_order_no_mutation_witness :
    makeOffer defaultConfig
        { counter := 3, max_counters := 3, current_discount_pct := 14,
          offers := [] } 5 =
      (.err .countersExhausted,
       { counter := 3, max_counters := 3, current_discount_pct := 14,
         offers := [] }) :=
  (C2_validation_order_no_mutation defaultConfig
      { counter := 3, max_counters := 3, current_discount_pct := 14,
        offers := [] } 5).2.2.2.2 rfl rfl (by norm_num [defaultConfig])

/-- C3: after a successful offer, a positive trait bonus computes
`final = min (base + bonus) max_discount_pct`; exactly when
`final > base` and `100 - final ≥ floor_margin_pct`, the most recent
offer's discount/margin are overwritten in place (counter untouched, no
new offers entry) and the result is marked bonus-applied with the
recorded base; otherwise result and state are untouched.  The clamp and
the margin test mean the bonus can push neither the discount above the
ceiling nor the margin below the floor. -/
theorem C3_trait_bonus (cfg : Config) (s : NegotiationState) (o : OfferOk)
    (bonus : ℚ) (hb : 0 < bonus) :
    (min (o.discount_pct + bonus) cfg.max_discount_pct > o.discount_pct ∧
       cfg.floor_margin_pct ≤
         100 - min (o.discount_pct + bonus) cfg.max_discount_pct →
      (applyTraitBonus cfg s (.ok o) bonus).1 =
        .ok { o with
              discount_pct := min (o.discount_pct + bonus) cfg.max_discount_pct,
              margin_pct := 100 - min (o.discount_pct + bonus) cfg.max_discount_pct,
              trait_bonus_applied := true,
              base_discount_pct := some o.discount_pct,
              trait_bonus_pct := some bonus } ∧
      (applyTraitBonus cfg s (.ok o) bonus).2.counter = s.counter ∧
      (applyTraitBonus cfg s (.ok o) bonus).2.current_discount_pct =
        min (o.discount_pct + bonus) cfg.max_discount_pct ∧
      (applyTraitBonus cfg s (.ok o) bonus).2.offers.length =
        s.offers.length ∧
      (∀ pre last, s.offers = pre ++ [last] →
        (applyTraitBonus cfg s (.ok o) bonus).2.offers =
          pre ++ [{ last with
                    discount_pct := min (o.discount_pct + bonus) cfg.max_discount_pct,
                    margin_pct :=
                      100 - min (o.discount_pct + bonus) cfg.max_discount_pct }]) ∧
      min (o.discount_pct + bonus) cfg.max_discount_pct ≤ cfg.max_discount_pct) ∧
    (¬ (min (o.discount_pct + bonus) cfg.max_discount_pct > o.discount_pct ∧
        cfg.floor_margin_pct ≤
          100 - min (o.discount_pct + bonus) cfg.max_discount_pct) →
      (applyTraitBonus cfg s (.ok o) bonus).1 = .ok o ∧
      (applyTraitBonus cfg s (.ok o) bonus).2 = s) := by
  constructor
  · rintro ⟨hgt, hfloor⟩
    have heq : applyTraitBonus cfg s (.ok o) bonus =
        (.ok { o with
               discount_pct := min (o.discount_pct + bonus) cfg.max_discount_pct,
               margin_pct :=
                 100 - min (o.discount_pct + bonus) cfg.max_discount_pct,
               trait_bonus_applied := true,
               base_discount_pct := some o.discount_pct,
               trait_bonus_pct := some bonus },
         { s with
           current_discount_pct :=
             min (o.discount_pct + bonus) cfg.max_discount_pct,
           offers :=
             updateLast (min (o.discount_pct + bonus) cfg.max_discount_pct)
               (100 - min (o.discount_pct + bonus) cfg.max_discount_pct)
               s.offers }) := by
      simp only [applyTraitBonus, if_pos hb]
      rw [if_pos hgt, if_pos hfloor]
    rw [heq]
    exact ⟨rfl, rfl, rfl, updateLast_length ..,
      fun pre last h => by rw [h, updateLast_append], min_le_right ..⟩
  · intro hneg
    have heq : applyTraitBonus cfg s (.ok o) bonus = (.ok o, s) := by
      simp only [applyTraitBonus, if_pos hb]
      by_cases hgt :
          min (o.discount_pct + bonus) cfg.max_discount_pct > o.discount_pct
      · rw [if_pos hgt, if_neg (fun hf => hneg ⟨hgt, hf⟩)]
      · rw [if_neg hgt]
    rw [heq]
    exact ⟨rfl, rfl⟩

/-- Witness for C3: a 2% bonus on an 8% offer (default config) boosts the
recorded offer to 10% / 90% margin in place. -/
theorem C3_trait_bonus_witness :
    (applyTraitBonus defaultConfig
        { counter := 1, max_counters := 3, current_discount_pct := 8,
          offers := [{ counter := 1, discount_pct := 8, margin_pct := 92 }] }
        (.ok { discount_pct := 8, margin_pct := 92, counter := 1,
               remaining_counters := 2 }) 2).1 =
      .ok { discount_pct := 10, margin_pct := 90, counter := 1,
            remaining_counters := 2, trait_bonus_applied := true,
            base_discount_pct := some 8, trait_bonus_pct := some 2 } := by
  have h := (C3_trait_bonus defaultConfig
      { counter := 1, max_counters := 3, current_discount_pct := 8,
        offers := [{ counter := 1, discount_pct := 8, margin_pct := 92 }] }
      { discount_pct := 8, margin_pct := 92, counter := 1,
        remaining_counters := 2 } 2 (by norm_num)).1
      (by constructor <;> norm_num [defaultConfig, min_def])
  rw [h.1]
  norm_num [defaultConfig, min_def]

/-! ## Theorems: fact-check classifier and consent gate -/

/-- C5: the classifier tries the directory-lookup (LinkedIn) family
first, then the verification (Brave) family, then the generic assertion
family; the first family with a matching pattern fixes the detection's
categorical confidence (0.7 / 0.6 / 0.5); no match yields
`needed: false`; and the two concrete fixtures behave as specified. -/
theorem C5_classifier_families (msg : String) :
    (∀ q, linkedinQuery (toLowerChars msg.data) = some q →
      detectFactCheckNeeded msg =
        { needed := true, agent_type := some .linkedin,
          query := some (String.mk q), confidence := 7/10,
          extracted_info := some (extractLinkedinInfo msg) }) ∧
    (linkedinQuery (toLowerChars msg.data) = none →
      braveMatch (toLowerChars msg.data) = true →
      detectFactCheckNeeded msg =
        { needed := true, agent_type := some .brave, query := some msg,
          confidence := 6/10, claim := some msg }) ∧
    (linkedinQuery (toLowerChars msg.data) = none →
      braveMatch (toLowerChars msg.data) = false →
      factCheckMatch (toLowerChars msg.data) = true →
      detectFactCheckNeeded msg =
        { needed := true, agent_type := some .brave, query := some msg,
          confidence := 5/10, claim := some msg }) ∧
    (linkedinQuery (toLowerChars msg.data) = none →
      braveMatch (toLowerChars msg.data) = false →
      factCheckMatch (toLowerChars msg.data) = false →
      detectFactCheckNeeded msg =
        { needed := false, agent_type := none, query := none,
          confidence := 0 }) ∧
    detectFactCheckNeeded "I work at Acme Corp" =
      { needed := true, agent_type := some .linkedin,
        query := some "acme corp", confidence := 7/10,
        extracted_info := some { name := none, company := some "acme corp",
                                 title := none } } ∧
    (detectFactCheckNeeded "According to a recent report, X is true").agent_type
        = some .brave ∧
    (detectFactCheckNeeded "According to a recent report, X is true").confidence
        = 6/10 := by
  refine ⟨?_, ?_, ?_, ?_, rfl, rfl, rfl⟩
  · intro q hq
    simp [detectFactCheckNeeded, hq]
  · intro h1 h2
    simp [detectFactCheckNeeded, h1, h2]
  · intro h1 h2 h3
    simp [detectFactCheckNeeded, h1, h2, h3]
  · intro h1 h2 h3
    simp [detectFactCheckNeeded, h1, h2, h3]

/-- Witness for C5: the directory-lookup fixture, through the general
family clause. -/
theorem C5_classifier_families_witness :
    detectFactCheckNeeded "I work at Acme Corp" =
      { needed := true, agent_type := some .linkedin,
        query := some (String.mk "acme corp".data), confidence := 7/10,
        extracted_info :=
          some (extractLinkedinInfo "I work at Acme Corp") } :=
  (C5_classifier_families "I work at Acme Corp").1 "acme corp".data rfl

/-- C6: `should_ask_consent` is true iff the detection is needed, its
confidence is at least 0.5, and the agent for its type was actually
constructed; confidence below 0.5 always suppresses it, as does an
unavailable capability. -/
theorem C6_consent_gate (av : Avail) (d : Detection) :
    (∀ a, d.agent_type = some a →
      (shouldAskConsent av d = true ↔
        d.needed = true ∧ (1 : ℚ)/2 ≤ d.confidence ∧ availFor av a = true)) ∧
    (d.confidence < 1/2 → shouldAskConsent av d = false) ∧
    (∀ a, d.agent_type = some a → availFor av a = false →
      shouldAskConsent av d = false) := by
  refine ⟨?_, ?_, ?_⟩
  · intro a ha
    cases a <;>
      cases hn : d.needed <;>
        cases hb : av.brave <;>
          cases hl : av.linkedin <;>
            simp_all [shouldAskConsent, availFor]
  · intro hconf
    unfold shouldAskConsent
    split_ifs <;> first | rfl | exact decide_eq_false (not_le.mpr hconf)
  · intro a ha hav
    cases a <;>
      cases hn : d.needed <;>
        simp_all [shouldAskConsent, availFor]

/-- Witness for C6: a needed Brave detection at confidence 0.6 with the
agent available passes the gate. -/
theorem C6_consent_gate_witness :
    shouldAskConsent { brave := true, linkedin := true }
      { needed := true, agent_type := some .brave, query := some "x",
        confidence := 6/10 } = true :=
  ((C6_consent_gate { brave := true, linkedin := true }
      { needed := true, agent_type := some .brave, query := some "x",
        confidence := 6/10 }).1 .brave rfl).mpr
    ⟨rfl, by norm_num, rfl⟩

/-- C10: the classifier never produces `needed: true` with confidence
below 0.5 — confidence is always one of 0, 0.5, 0.6, 0.7 — so the
confidence threshold in `should_ask_consent` can never be the reason a
consent request is suppressed for a classifier-produced detection: it is
suppressed exactly when the detection is not needed or its agent is
unavailable. -/
theorem C10_confidence_floor (msg : String) (av : Avail) :
    ((detectFactCheckNeeded msg).needed = true →
      (1 : ℚ)/2 ≤ (detectFactCheckNeeded msg).confidence) ∧
    ((detectFactCheckNeeded msg).confidence = 0 ∨
     (detectFactCheckNeeded msg).confidence = 5/10 ∨
     (detectFactCheckNeeded msg).confidence = 6/10 ∨
     (detectFactCheckNeeded msg).confidence = 7/10) ∧
    (shouldAskConsent av (detectFactCheckNeeded msg) = false ↔
      ((detectFactCheckNeeded msg).needed = false ∨
       ∃ a, (detectFactCheckNeeded msg).agent_type = some a ∧
         availFor av a = false)) := by
  rcases hlq : linkedinQuery (toLowerChars msg.data) with _ | q
  · by_cases hb : braveMatch (toLowerChars msg.data)
    · simp only [detectFactCheckNeeded, hlq, hb, if_pos]
      refine ⟨fun _ => by norm_num, by norm_num, ?_⟩
      cases hbb : av.brave <;> cases hbl : av.linkedin <;>
        simp_all [shouldAskConsent, availFor] <;> norm_num
    · by_cases hf : factCheckMatch (toLowerChars msg.data)
      · simp only [detectFactCheckNeeded, hlq, hb, hf, if_neg, if_pos,
          Bool.false_eq_true, not_false_eq_true]
        refine ⟨fun _ => by norm_num, by norm_num, ?_⟩
        cases hbb : av.brave <;> cases hbl : av.linkedin <;>
          simp_all [shouldAskConsent, availFor] <;> norm_num
      · simp only [detectFactCheckNeeded, hlq, hb, hf, if_neg,
          Bool.false_eq_true, not_false_eq_true]
        refine ⟨fun h => by simp at h, by norm_num, ?_⟩
        simp [shouldAskConsent]
  · simp only [detectFactCheckNeeded, hlq]
    refine ⟨fun _ => by norm_num, by norm_num, ?_⟩
    cases hbb : av.brave <;> cases hbl : av.linkedin <;>
      simp_all [shouldAskConsent, availFor] <;> norm_num

/-- Witness for C10: the confidence-floor clause at the directory-lookup
fixture. -/
theorem C10_confidence_floor_witness :
    (1 : ℚ)/2 ≤ (detectFactCheckNeeded "I work at Acme Corp").confidence :=
  (C10_confidence_floor "I work at Acme Corp"
      { brave := true, linkedin := true }).1 rfl

/-- C4: whenever a pending consent detection exists, the next message is
handled purely as a consent answer: an affirmative (trimmed, lowercased
member of the fixed vocabulary) dispatches the pending detection exactly
once, anything else dispatches nothing, and in both cases the pending
detection is cleared, returning the session to the idle state. -/
theorem C4_consent_protocol (av : Avail) (s : ConsentView) (msg : String)
    (det : Detection) (hp : s.pending_fact_check = some det) :
    (chatStep av s msg).2.pending_fact_check = none ∧
    (isConsentGiven msg = true →
      (chatStep av s msg).1 =
        [{ agent_type := det.agent_type, query := det.query,
           extracted_info := det.extracted_info }]) ∧
    (isConsentGiven msg = false → (chatStep av s msg).1 = []) := by
  have hs : s.pending_fact_check.isSome = true := by rw [hp]; rfl
  simp only [chatStep, hs, if_pos, handleConsentResponse, hp]
  by_cases hc : isConsentGiven msg
  · simp [hc]
  · simp [hc]

/-- Witness for C4: answering "yes" to a pending directory-lookup
detection dispatches once and clears the pending state. -/
theorem C4_consent_protocol_witness :
    (chatStep { brave := true, linkedin := true }
        { pending_fact_check := some (detectFactCheckNeeded "I work at Acme Corp") }
        "yes").2.pending_fact_check = none ∧
    (chatStep { brave := true, linkedin := true }
        { pending_fact_check := some (detectFactCheckNeeded "I work at Acme Corp") }
        "yes").1.length = 1 := by
  have h := C4_consent_protocol { brave := true, linkedin := true }
    { pending_fact_check := some (detectFactCheckNeeded "I work at Acme Corp") }
    "yes" (detectFactCheckNeeded "I work at Acme Corp") rfl
  exact ⟨h.1, by rw [h.2.1 rfl]; rfl⟩

/-! ## Theorems: trait detection -/

theorem insertDesc_perm (a : TraitDetection) (l : List TraitDetection) :
    (insertDesc a l).Perm (a :: l) := by
  induction l with
  | nil => exact List.Perm.refl _
  | cons b t ih =>
    simp only [insertDesc]
    split_ifs
    · exact List.Perm.refl _
    · exact (ih.cons b).trans (List.Perm.swap a b t)

theorem sortDesc_perm (l : List TraitDetection) : (sortDesc l).Perm l := by
  induction l with
  | nil => exact List.Perm.refl _
  | cons a t ih => exact (insertDesc_perm a (sortDesc t)).trans (ih.cons a)

theorem insertDesc_pairwise (a : TraitDetection) (l : List TraitDetection)
    (h : l.Pairwise (fun x y => y.confidence ≤ x.confidence)) :
    (insertDesc a l).Pairwise (fun x y => y.confidence ≤ x.confidence) := by
  induction l with
  | nil => exact List.pairwise_singleton ..
  | cons b t ih =>
    obtain ⟨hb, ht⟩ := List.pairwise_cons.mp h
    simp only [insertDesc]
    split_ifs with hba
    · exact List.pairwise_cons.mpr
        ⟨fun x hx => by
          rcases List.mem_cons.mp hx with rfl | hx
          · exact hba
          · exact (hb x hx).trans hba,
         h⟩
    · refine List.pairwise_cons.mpr ⟨fun x hx => ?_, ih ht⟩
      rcases List.mem_cons.mp ((insertDesc_perm a t).mem_iff.mp hx) with rfl | h'
      · exact le_of_lt (not_le.mp hba)
      · exact hb x h'

theorem sortDesc_pairwise (l : List TraitDetection) :
    (sortDesc l).Pairwise (fun x y => y.confidence ≤ x.confidence) := by
  induction l with
  | nil => exact List.Pairwise.nil
  | cons a t ih => exact insertDesc_pairwise a (sortDesc t) ih

theorem insertDesc_filter_confidence (c : ℚ) (a : TraitDetection)
    (l : List TraitDetection) :
    (insertDesc a l).filter (fun d => decide (d.confidence = c)) =
      (a :: l).filter (fun d => decide (d.confidence = c)) := by
  induction l with
  | nil => rfl
  | cons b t ih =>
    simp only [insertDesc]
    split_ifs with hba
    · rfl
    · have hab : a.confidence < b.confidence := not_le.mp hba
      by_cases hpa : a.confidence = c <;> by_cases hpb : b.confidence = c
      · exact absurd (hpa.trans hpb.symm) (ne_of_lt hab)
      · simp [List.filter_cons, hpa, hpb, ih]
      · simp [List.filter_cons, hpa, hpb, ih]
      · simp [List.filter_cons, hpa, hpb, ih]

theorem sortDesc_filter_confidence (c : ℚ) (l : List TraitDetection) :
    (sortDesc l).filter (fun d => decide (d.confidence = c)) =
      l.filter (fun d => decide (d.confidence = c)) := by
  induction l with
  | nil => rfl
  | cons a t ih =>
    simp only [sortDesc, insertDesc_filter_confidence, List.filter_cons, ih]

/-- C9: `detect_traits` is a pure function of text and catalog; it keeps
exactly the catalog traits with a positive case-insensitive keyword match
count, scores each `min(matches / total_keywords * 2, 1)`, and returns
them sorted by descending confidence with ties kept in catalog order
(formally: the output is a permutation of the catalog-ordered candidate
list, pairwise descending, and filtering either list to any fixed
confidence value yields identical sublists). -/
theorem C9_detect_traits (catalog : List TraitSpec) (text : String) :
    detectTraits catalog text = detectTraits catalog text ∧
    (detectTraits catalog text).Perm (traitCandidates catalog text) ∧
    (∀ d, d ∈ detectTraits catalog text ↔
      ∃ sp ∈ catalog, 0 < matchCount sp.keywords (toLowerChars text.data) ∧
        d = { trait := sp.name,
              confidence :=
                min ((matchCount sp.keywords (toLowerChars text.data) : ℚ) /
                  (sp.keywords.length : ℚ) * 2) 1,
              match_count := matchCount sp.keywords (toLowerChars text.data) }) ∧
    (detectTraits catalog text).Pairwise
      (fun x y => y.confidence ≤ x.confidence) ∧
    (∀ c : ℚ,
      (detectTraits catalog text).filter (fun d => decide (d.confidence = c)) =
        (traitCandidates catalog text).filter
          (fun d => decide (d.confidence = c))) := by
  refine ⟨rfl, sortDesc_perm _, ?_, sortDesc_pairwise _,
    fun c => sortDesc_filter_confidence c _⟩
  intro d
  rw [detectTraits, (sortDesc_perm _).mem_iff, traitCandidates,
    List.mem_filterMap]
  constructor
  · rintro ⟨sp, hsp, hf⟩
    simp only at hf
    by_cases hm : 0 < matchCount sp.keywords (toLowerChars text.data)
    · rw [if_pos hm] at hf
      exact ⟨sp, hsp, hm, (Option.some_inj.mp hf).symm⟩
    · rw [if_neg hm] at hf
      exact absurd hf (by simp)
  · rintro ⟨sp, hsp, hm, rfl⟩
    exact ⟨sp, hsp, by simp only; rw [if_pos hm]⟩

/-- Witness for C9: the tie-stability clause applied to a concrete
catalog and text. -/
theorem C9_detect_traits_witness :
    (detectTraits demoCatalog "i own a salon").filter
        (fun d => decide (d.confidence = (1 : ℚ))) =
      (traitCandidates demoCatalog "i own a salon").filter
        (fun d => decide (d.confidence = (1 : ℚ))) :=
  (C9_detect_traits demoCatalog "i own a salon").2.2.2.2 1

/-! ## Theorems: discount service -/

theorem simCode_length (picks : Fin 8 → Fin 36) :
    (simCode picks).length = 8 := by
  simp [simCode, String.length]

theorem simCode_chars (picks : Fin 8 → Fin 36) :
    ∀ ch ∈ (simCode picks).data, ch ∈ simAlphabet := by
  intro ch hch
  simp only [simCode, List.mem_ofFn] at hch
  obtain ⟨i, hi⟩ := hch
  have hlt : ((picks i).val : ℕ) < simAlphabet.length := (picks i).isLt
  subst hi
  simp only
  rw [List.getD_eq_getElem _ _ hlt]
  exact List.getElem_mem _

/-- C8 (amended): when the underlying offer succeeds, an *unconfigured*
commerce client or a *raised* exception makes `create_negotiation_discount`
fall back to a locally generated simulated code — with no custom code
supplied, an 8-character string over uppercase letters and digits,
flagged `simulated: true` — and return success.  (As literally stated
over every failing commerce call the claim is false: a configured client
that returns a structured `success: false` payload is forwarded as a
failure — see the counterexample.) -/
theorem C8_simulated_fallback (cfg : Config) (catalog : List TraitSpec)
    (mtb : ℚ) (s : NegotiationState) (d? : Option ℚ) (text : Option String)
    (picks : Fin 8 → Fin 36) (expires : String) (o : OfferOk)
    (hok : (makeDiscountOffer cfg s d? (traitBonusOf catalog mtb text)).1 =
      .ok o) :
    ∀ shopify ∈ [ShopifyBehavior.unavailable, ShopifyBehavior.raises],
      (createNegotiationDiscount cfg catalog mtb s d? none text shopify picks
          expires).1.success = true ∧
      (createNegotiationDiscount cfg catalog mtb s d? none text shopify picks
          expires).1.simulated? = true ∧
      (createNegotiationDiscount cfg catalog mtb s d? none text shopify picks
          expires).1.code? = some (simCode picks) ∧
      (simCode picks).length = 8 ∧
      (∀ ch ∈ (simCode picks).data, ch ∈ simAlphabet) := by
  intro shopify hs
  have hred : ∀ sh, (createNegotiationDiscount cfg catalog mtb s d? none text
      sh picks expires).1 =
      match (makeDiscountOffer cfg s d? (traitBonusOf catalog mtb text)).1 with
      | .err e => .offerFailed e
      | .ok o' =>
        match sh with
        | .unavailable => createSimulatedDiscount none picks expires
            o'.discount_pct o' ((traitsOf catalog text).map (fun t => t.trait))
        | .raises => createSimulatedDiscount none picks expires
            o'.discount_pct o' ((traitsOf catalog text).map (fun t => t.trait))
        | .ok c id => .created c o'.discount_pct expires o'.counter
            o'.remaining_counters id
            ((traitsOf catalog text).map (fun t => t.trait))
            o'.trait_bonus_applied
            (o'.base_discount_pct.getD o'.discount_pct) false
        | .fails err => .shopifyFailed err o'.discount_pct := by
    intro sh
    simp only [createNegotiationDiscount]
    rcases (makeDiscountOffer cfg s d? (traitBonusOf catalog mtb text)).1 with
      o' | e <;> cases sh <;> rfl
  rcases List.mem_cons.mp hs with rfl | hs'
  · rw [hred, hok]
    exact ⟨rfl, rfl, rfl, simCode_length picks, simCode_chars picks⟩
  · rcases List.mem_singleton.mp hs' with rfl
    rw [hred, hok]
    exact ⟨rfl, rfl, rfl, simCode_length picks, simCode_chars picks⟩

/-- Witness for C8: with the Shopify client unconfigured, a fresh
default-config session gets a simulated 8-character code and success. -/
theorem C8_simulated_fallback_witness :
    (createNegotiationDiscount defaultConfig [] 10 initState none none none
        .unavailable (fun _ => 0) "t").1.success = true ∧
    (createNegotiationDiscount defaultConfig [] 10 initState none none none
        .unavailable (fun _ => 0) "t").1.simulated? = true := by
  have h := C8_simulated_fallback defaultConfig [] 10 initState none none
    (fun _ => 0) "t"
    { discount_pct := 8, margin_pct := 92, counter := 1,
      remaining_counters := 2 }
    (by norm_num [makeDiscountOffer, getNextOffer, nextDiscount, makeOffer,
      applyTraitBonus, traitBonusOf, traitsOf, initState, defaultConfig])
    .unavailable (by simp)
  exact ⟨h.1, h.2.1⟩

/-- Counterexample for C8 as literally stated: the underlying offer
succeeds, the commerce capability is *failing* (it returns a structured
`success: false` payload), yet the service returns a failure instead of
falling back to a simulated code. -/
theorem C8_counterexample :
    (makeDiscountOffer defaultConfig initState none
        (traitBonusOf [] 10 none)).1.isOk = true ∧
    (createNegotiationDiscount defaultConfig [] 10 initState none none none
        (.fails "shopify error") (fun _ => 0) "t").1 =
      .shopifyFailed "shopify error" 8 := by
  constructor <;>
    norm_num [createNegotiationDiscount, makeDiscountOffer, getNextOffer,
      nextDiscount, makeOffer, applyTraitBonus, traitBonusOf, traitsOf,
      initState, defaultConfig, OfferResult.isOk, DiscountResult.success]

end Nudge
